import Mathlib

/-
Verification of the Azure connector module
(src/multicloud_pipeline/connectors/azure_connectors.py).

The module builds configuration option maps and connection strings and
forwards them to an external dataframe engine.  We embed each connector
as a pure Lean function from its (translated) arguments to the data the
engine receives, with Python exceptions modelled by an `Except` result.
Python `Optional[Dict[str, Any]]` configs are modelled as
`Option (List (String × String))` association lists with unique keys in
mind (lookups take the first binding, like a Python dict); config
values relevant to the claims are all strings.
-/

namespace AzureConnectors

/-- Python exception classes that the embedded code can raise. -/
inductive PyError : Type where
  | valueError (msg : String)
  | typeError (msg : String)
  | attributeError (msg : String)
  | keyError (key : String)
  | compileError (msg : String)
  deriving Repr, DecidableEq

/-- Membership test of a key in a Python dict (the expression `k in d`). -/
def dmem (cfg : List (String × String)) (k : String) : Bool :=
  cfg.any (fun p => p.1 == k)

/-- Lookup of a key in a Python dict, returning `none` when absent. -/
def dfind (cfg : List (String × String)) (k : String) : Option String :=
  (cfg.find? (fun p => p.1 == k)).map (fun p => p.2)

/-- Python `d.get(k, default)`. -/
def dget (cfg : List (String × String)) (k : String) (default : String) : String :=
  (dfind cfg k).getD default

/-- Truthiness of a Python `Optional[str]`: `None` and the empty string are
falsy, every other string is truthy. -/
def pyTruthy (o : Option String) : Bool :=
  match o with
  | none => false
  | some s => !(s == "")

/-- Value a key ends up bound to after a sequence of bindings is applied in
order, later bindings overriding earlier ones.  This is the observable map
the engine receives both from chained `.option(k, v)` calls (a later call
with the same key overrides) and from Python `dict.update`. -/
def lastVal {α : Type} (l : List (String × α)) (k : String) : Option α :=
  (l.reverse.find? (fun p => p.1 == k)).map (fun p => p.2)

/-- AzureConnector._configure_auth, embedded as the list of
`spark.conf.set(key, value)` calls it performs, in order.  Translated from
the if/elif chain at azure_connectors.py lines 28-48; the `sas_token`
branch indexes `self.config` with the raw key `container`, which raises
`KeyError` when absent. -/
def configureAuth (account_name : String) (config : List (String × String))
    (auth_type : String) : Except PyError (List (String × String)) :=
  if auth_type == "account_key" && dmem config "account_key" then
    .ok [("fs.azure.account.key." ++ account_name ++ ".dfs.core.windows.net",
          dget config "account_key" "")]
  else if auth_type == "sas_token" && dmem config "sas_token" then
    match dfind config "container" with
    | some container =>
        .ok [("fs.azure.sas." ++ container ++ "." ++ account_name ++ ".blob.core.windows.net",
              dget config "sas_token" "")]
    | none => .error (.keyError "container")
  else if auth_type == "managed_identity" then
    .ok [("fs.azure.account.auth.type", "OAuth"),
         ("fs.azure.account.oauth.provider.type",
          "org.apache.hadoop.fs.azurebfs.oauth2.MsiTokenProvider")]
  else
    .ok []

/-- Arguments of a `spark.read.format(fmt) ... .load(path)` call: what the
engine receives from a batch read. -/
structure EngineLoad : Type where
  format : String
  options : List (String × String)
  path : String
  deriving Repr, DecidableEq

/-- Arguments of a `df.write.format(fmt).mode(mode) ... .save(path)` call:
what the engine receives from a batch write to a storage path. -/
structure EngineSave : Type where
  format : String
  mode : String
  partitionBy : List String
  options : List (String × String)
  path : String
  deriving Repr, DecidableEq

/-- State of a constructed AzureBlobConnector (superclass fields from
AzureConnector plus the container). -/
structure AzureBlobConnector : Type where
  account_name : String
  container : String
  config : List (String × String)
  deriving Repr, DecidableEq

/-- AzureBlobConnector.__init__ (azure_connectors.py lines 65-74): stores the
fields (with `self.config = config or \x7b\x7d`) and calls `_configure_auth`
with `config.get("auth_type", "account_key") if config else "account_key"`.
Returns the connector together with the engine configuration keys set. -/
def AzureBlobConnector.init (account_name container : String)
    (config : Option (List (String × String))) :
    Except PyError (AzureBlobConnector × List (String × String)) := do
  let cfg := config.getD []
  let auth_type :=
    match config with
    | some c => dget c "auth_type" "account_key"
    | none => "account_key"
  let sets ← configureAuth account_name cfg auth_type
  .ok ({ account_name := account_name, container := container, config := cfg }, sets)

/-- AzureBlobConnector.read (lines 134-161).  The f-string
`wasbs://` container `@` account_name `.blob.core.windows.net/` path is
the load path; caller options are applied one by one after the format. -/
def AzureBlobConnector.read (c : AzureBlobConnector) (path : String)
    (format : String) (options : Option (List (String × String))) : EngineLoad :=
  { format := format,
    options := options.getD [],
    path := "wasbs://" ++ c.container ++ "@" ++ c.account_name
              ++ ".blob.core.windows.net/" ++ path }

/-- AzureBlobConnector.write (lines 163-191). -/
def AzureBlobConnector.write (c : AzureBlobConnector) (path : String)
    (format : String) (mode : String)
    (options : Option (List (String × String))) : EngineSave :=
  { format := format,
    mode := mode,
    partitionBy := [],
    options := options.getD [],
    path := "wasbs://" ++ c.container ++ "@" ++ c.account_name
              ++ ".blob.core.windows.net/" ++ path }

/-- State of a constructed AzureDataLakeGen2Connector. -/
structure AzureDataLakeGen2Connector : Type where
  account_name : String
  container : String
  config : List (String × String)
  deriving Repr, DecidableEq

/-- AzureDataLakeGen2Connector.__init__ (lines 208-217), identical in shape
to the blob connector's constructor. -/
def AzureDataLakeGen2Connector.init (account_name container : String)
    (config : Option (List (String × String))) :
    Except PyError (AzureDataLakeGen2Connector × List (String × String)) := do
  let cfg := config.getD []
  let auth_type :=
    match config with
    | some c => dget c "auth_type" "account_key"
    | none => "account_key"
  let sets ← configureAuth account_name cfg auth_type
  .ok ({ account_name := account_name, container := container, config := cfg }, sets)

/-- AzureDataLakeGen2Connector.read (lines 219-246), using the ABFS URL
`abfss://` container `@` account_name `.dfs.core.windows.net/` path. -/
def AzureDataLakeGen2Connector.read (c : AzureDataLakeGen2Connector) (path : String)
    (format : String) (options : Option (List (String × String))) : EngineLoad :=
  { format := format,
    options := options.getD [],
    path := "abfss://" ++ c.container ++ "@" ++ c.account_name
              ++ ".dfs.core.windows.net/" ++ path }

/-- AzureDataLakeGen2Connector.write (lines 248-281), with the optional
`partition_by` column list applied before the caller options. -/
def AzureDataLakeGen2Connector.write (c : AzureDataLakeGen2Connector) (path : String)
    (format : String) (mode : String) (partition_by : Option (List String))
    (options : Option (List (String × String))) : EngineSave :=
  { format := format,
    mode := mode,
    partitionBy := partition_by.getD [],
    options := options.getD [],
    path := "abfss://" ++ c.container ++ "@" ++ c.account_name
              ++ ".dfs.core.windows.net/" ++ path }

/-
The orphaned fragment (azure_connectors.py lines 77-131) sits directly in
the class body of AzureBlobConnector, between __init__ and read.  We model
the Python statement kinds the file contains at class-body level, with the
compile-time rule that a `return` statement is only legal inside a function
body: CPython rejects a class-body-level `return` with
a compile-time error (`return` outside function), before the module executes.
-/

/-- Kinds of statements that appear at class-body level in the module. -/
inductive PyStmt : Type where
  | defFn (name : String)
  | assign (name : String)
  | forLoop
  | ret
  deriving Repr, DecidableEq

/-- Compile-time legality of a statement at class-body level: Python rejects
a `return` outside a function at compile time. -/
def classBodyStmtOk : PyStmt → Bool
  | .ret => false
  | _ => true

/-- The statements of the embedded fragment at class-body level (lines
77-131): the `_find_index_for_key` definition, the `goal_theta` assignment,
the `for g in goals_list:` loop, and the bare `return goal_theta`. -/
def fragmentStmts : List PyStmt :=
  [PyStmt.defFn "_find_index_for_key", PyStmt.assign "goal_theta",
   PyStmt.forLoop, PyStmt.ret]

/-- Class body of AzureBlobConnector, with or without the embedded
fragment between `__init__` and `read`. -/
def azureBlobClassBody (withFragment : Bool) : List PyStmt :=
  [PyStmt.defFn "__init__"]
    ++ (if withFragment then fragmentStmts else [])
    ++ [PyStmt.defFn "read", PyStmt.defFn "write"]

/-- Whether the module compiles: every class-body statement of
AzureBlobConnector must be legal there (the other classes contain only
function definitions). -/
def moduleCompiles (withFragment : Bool) : Bool :=
  (azureBlobClassBody withFragment).all classBodyStmtOk

/-- Importing the module: a compile failure surfaces as a SyntaxError and no
definition of the module (no connector class, no operation) becomes
available. -/
def moduleImport (withFragment : Bool) : Except PyError Unit :=
  if moduleCompiles withFragment then .ok ()
  else .error (.compileError "return outside function")

/-- State of a constructed AzureSynapseConnector or AzureSQLConnector: the
fields both constructors store. -/
structure JdbcConn : Type where
  server : String
  database : String
  config : List (String × String)
  jdbc_url : String
  connection_properties : List (String × String)
  deriving Repr, DecidableEq

/-- AzureSynapseConnector.__init__ (lines 298-316).  `self.config` is set to
`config or \x7b\x7d`, but the connection properties call `.get` on the RAW
`config` argument, so a `None` config raises AttributeError before any field
past `self.config` is set. -/
def synapseInit (server database : String)
    (config : Option (List (String × String))) : Except PyError JdbcConn :=
  match config with
  | none => .error (.attributeError "NoneType object has no attribute get")
  | some cfg =>
      .ok { server := server, database := database, config := cfg,
            jdbc_url := "jdbc:sqlserver://" ++ server ++ ":1433;database=" ++ database,
            connection_properties :=
              [("user", dget cfg "user" ""),
               ("password", dget cfg "password" ""),
               ("driver", "com.microsoft.sqlserver.jdbc.SQLServerDriver")] }

/-- AzureSQLConnector.__init__ (lines 502-520), identical to the Synapse
constructor except for the longer JDBC URL with the fixed encryption and
timeout parameters. -/
def sqlInit (server database : String)
    (config : Option (List (String × String))) : Except PyError JdbcConn :=
  match config with
  | none => .error (.attributeError "NoneType object has no attribute get")
  | some cfg =>
      .ok { server := server, database := database, config := cfg,
            jdbc_url := "jdbc:sqlserver://" ++ server ++ ":1433;database=" ++ database
              ++ ";encrypt=true;trustServerCertificate=false;hostNameInCertificate=*.database.windows.net;loginTimeout=30",
            connection_properties :=
              [("user", dget cfg "user" ""),
               ("password", dget cfg "password" ""),
               ("driver", "com.microsoft.sqlserver.jdbc.SQLServerDriver")] }

/-- Option list a JDBC read hands to `spark.read.format("jdbc")`, in the
order the `.option` calls are made (lines 343-356 and 534-547): the url,
then each connection property, then `dbtable` when `table` is truthy else
`query` (forwarding the raw Python value, possibly `None`), then the caller
options.  Values are `Option String` so that a forwarded Python `None` is
representable. -/
def jdbcReadOptions (c : JdbcConn) (table query : Option String)
    (options : Option (List (String × String))) : List (String × Option String) :=
  [("url", some c.jdbc_url)]
    ++ c.connection_properties.map (fun p => (p.1, some p.2))
    ++ (if pyTruthy table then [("dbtable", table)] else [("query", query)])
    ++ (options.getD []).map (fun p => (p.1, some p.2))

/-- Option list a JDBC write hands to `df.write.format("jdbc")`
(lines 378-388 and 561-571): the url and target table, then each connection
property, then the caller options. -/
def jdbcWriteOptions (c : JdbcConn) (table : String)
    (options : Option (List (String × String))) : List (String × Option String) :=
  [("url", some c.jdbc_url), ("dbtable", some table)]
    ++ c.connection_properties.map (fun p => (p.1, some p.2))
    ++ (options.getD []).map (fun p => (p.1, some p.2))

/-- AzureSynapseConnector.read (lines 318-358): rejects a call where both
`table` and `query` are truthy, then rejects a call where neither is, and
otherwise returns the option list the engine loads with. -/
def synapseRead (c : JdbcConn) (table query : Option String)
    (options : Option (List (String × String))) :
    Except PyError (List (String × Option String)) :=
  if pyTruthy table && pyTruthy query then
    .error (.valueError "Provide either table or query, not both")
  else if !pyTruthy table && !pyTruthy query then
    .error (.valueError "Provide either table or query")
  else
    .ok (jdbcReadOptions c table query options)

/-- AzureSynapseConnector.write (lines 360-390). -/
def synapseWrite (c : JdbcConn) (table : String) (mode : String)
    (options : Option (List (String × String))) :
    String × List (String × Option String) :=
  (mode, jdbcWriteOptions c table options)

/-- AzureSQLConnector.read (lines 522-549): rejects a call where both
`table` and `query` are truthy; it has NO check for the case where neither
is supplied, and then forwards `("query", None)` to the engine. -/
def sqlRead (c : JdbcConn) (table query : Option String)
    (options : Option (List (String × String))) :
    Except PyError (List (String × Option String)) :=
  if pyTruthy table && pyTruthy query then
    .error (.valueError "Provide either table or query, not both")
  else
    .ok (jdbcReadOptions c table query options)

/-- AzureSQLConnector.write (lines 551-573), same shape as the Synapse
write. -/
def sqlWrite (c : JdbcConn) (table : String) (mode : String)
    (options : Option (List (String × String))) :
    String × List (String × Option String) :=
  (mode, jdbcWriteOptions c table options)

/-- State of a constructed AzureEventHubConnector. -/
structure EventHubConn : Type where
  namespaceName : String
  eventhub_name : String
  config : List (String × String)
  connection_string : String
  deriving Repr, DecidableEq

/-- AzureEventHubConnector.__init__ (lines 407-423).  After
`self.config = config or \x7b\x7d`, the membership test
`"connection_string" in config` runs on the RAW `config` argument: with a
`None` config it raises TypeError (NoneType is not iterable); with the key
absent it raises the validation ValueError; with the key present the value
is stored as the connection string. -/
def eventHubInit (namespaceName eventhub_name : String)
    (config : Option (List (String × String))) : Except PyError EventHubConn :=
  match config with
  | none => .error (.typeError "argument of type NoneType is not iterable")
  | some cfg =>
      if dmem cfg "connection_string" then
        .ok { namespaceName := namespaceName, eventhub_name := eventhub_name,
              config := cfg,
              connection_string := dget cfg "connection_string" "" }
      else
        .error (.valueError "connection_string is required in config")

/-- AzureEventHubConnector.read_stream (lines 425-453): builds the dict
`eh_conf` with the connection string and the starting-position JSON, merges
the caller options into it with `dict.update` (caller entries override),
and passes the result to `spark.readStream.format("eventhubs")`.  The
observable per-key map the engine receives is `lastVal` of this list. -/
def ehReadStream (c : EventHubConn) (starting_position : String)
    (options : Option (List (String × String))) : List (String × String) :=
  [("eventhubs.connectionString", c.connection_string),
   ("eventhubs.startingPosition",
    "\x7b\"offset\": \"" ++ starting_position ++ "\"\x7d")]
    ++ options.getD []

/-- Result of AzureEventHubConnector.write_stream: output mode, engine
options (the `eh_conf` dict plus the checkpoint location option), and the
trigger string. -/
structure EngineStreamWrite : Type where
  output_mode : String
  options : List (String × String)
  trigger : String
  deriving Repr, DecidableEq

/-- AzureEventHubConnector.write_stream (lines 455-485): the only engine
options are the connection string from `eh_conf` and the checkpoint
location; there is no caller option map. -/
def ehWriteStream (c : EventHubConn) (checkpoint_location : String)
    (output_mode : String) (trigger : String) : EngineStreamWrite :=
  { output_mode := output_mode,
    options := [("eventhubs.connectionString", c.connection_string),
                ("checkpointLocation", checkpoint_location)],
    trigger := trigger }

/-- Classifier used to state that a raised error is the generic validation
error (a Python ValueError) as opposed to another exception class. -/
def isValidationError {α : Type} : Except PyError α → Bool
  | .error (.valueError _) => true
  | _ => false

/-
Helper lemmas about the dictionary and option-map observations.
-/

theorem lastVal_append {α : Type} (l₁ l₂ : List (String × α)) (k : String) :
    lastVal (l₁ ++ l₂) k = (lastVal l₂ k).or (lastVal l₁ k) := by
  unfold lastVal
  rw [List.reverse_append, List.find?_append]
  cases l₂.reverse.find? (fun p => p.1 == k) <;> simp

theorem lastVal_map_some {α : Type} (l : List (String × α)) (k : String) :
    lastVal (l.map (fun p => (p.1, some p.2))) k = (lastVal l k).map some := by
  unfold lastVal
  rw [← List.map_reverse, List.find?_map]
  show ((l.reverse.find? (fun p => p.1 == k)).map
      (fun p => (p.1, some p.2))).map (fun p => p.2) = _
  cases l.reverse.find? (fun p => p.1 == k) <;> rfl

theorem dmem_of_dfind_eq_some (cfg : List (String × String)) (k v : String)
    (h : dfind cfg k = some v) : dmem cfg k = true := by
  unfold dfind at h
  unfold dmem
  cases hf : cfg.find? (fun p => p.1 == k) with
  | none => rw [hf] at h; cases h
  | some p =>
      have hp := @List.find?_some _ (fun q => q.1 == k) p cfg hf
      show cfg.any (fun q => q.1 == k) = true
      exact List.any_eq_true.mpr ⟨p, List.mem_of_find?_eq_some hf, hp⟩

theorem dget_of_dmem_false (cfg : List (String × String)) (k d : String)
    (h : dmem cfg k = false) : dget cfg k d = d := by
  unfold dget dfind
  cases hf : cfg.find? (fun p => p.1 == k) with
  | none => rfl
  | some p =>
      have hp := @List.find?_some _ (fun q => q.1 == k) p cfg hf
      have hall : cfg.any (fun q => q.1 == k) = true :=
        List.any_eq_true.mpr ⟨p, List.mem_of_find?_eq_some hf, hp⟩
      unfold dmem at h
      rw [h] at hall
      cases hall

/-
Sample states used to instantiate the universally quantified theorems on
concrete inputs.
-/

/-- Connector state produced by `synapseInit "srv" "db"` on the config
holding user `u` and password `p` (the value `synapseInit` returns there). -/
def sampleConn : JdbcConn :=
  { server := "srv", database := "db",
    config := [("user", "u"), ("password", "p")],
    jdbc_url := "jdbc:sqlserver://srv:1433;database=db",
    connection_properties :=
      [("user", "u"), ("password", "p"),
       ("driver", "com.microsoft.sqlserver.jdbc.SQLServerDriver")] }

/-- Connector state produced by `sqlInit "srv" "db"` on the same config. -/
def sampleSql : JdbcConn :=
  { server := "srv", database := "db",
    config := [("user", "u"), ("password", "p")],
    jdbc_url := "jdbc:sqlserver://srv:1433;database=db;encrypt=true;trustServerCertificate=false;hostNameInCertificate=*.database.windows.net;loginTimeout=30",
    connection_properties :=
      [("user", "u"), ("password", "p"),
       ("driver", "com.microsoft.sqlserver.jdbc.SQLServerDriver")] }

/-- Connector state produced by `synapseInit "srv" "db"` on the empty
config dict. -/
def emptyCfgConn : JdbcConn :=
  { server := "srv", database := "db", config := [],
    jdbc_url := "jdbc:sqlserver://srv:1433;database=db",
    connection_properties :=
      [("user", ""), ("password", ""),
       ("driver", "com.microsoft.sqlserver.jdbc.SQLServerDriver")] }

/-- Connector state produced by `eventHubInit "ns" "hub"` on a config
holding the connection string. -/
def sampleHub : EventHubConn :=
  { namespaceName := "ns", eventhub_name := "hub",
    config := [("connection_string", "Endpoint=sb-one")],
    connection_string := "Endpoint=sb-one" }

/-
Claim theorems.
-/

/-- C1: the claim says the embedded phase/goal-vector fragment is
disconnected and every public connector operation behaves identically with
the fragment removed.  The code contradicts this: the fragment sits at
class-body level of AzureBlobConnector and ends in a bare `return`
statement, which Python rejects at compile time, so the module with the
fragment fails to import with a SyntaxError and NO connector operation is
available at all, while the module with the fragment removed imports
cleanly.  This theorem evaluates the embedded module at the failing input
(importing it with the fragment present). -/
theorem c1_fragment_breaks_module :
    moduleImport true = .error (.compileError "return outside function")
    ∧ moduleImport false = .ok ()
    ∧ moduleCompiles true = false
    ∧ moduleCompiles false = true
    ∧ PyStmt.ret ∈ fragmentStmts ∧ classBodyStmtOk PyStmt.ret = false := by
  refine ⟨rfl, rfl, rfl, rfl, ?_, rfl⟩
  simp [fragmentStmts]

/-- C2: in every call of AzureSynapseConnector.read and
AzureSQLConnector.read in which both the table and the query argument are
truthy, the call raises the generic validation error (a ValueError) and
performs no read: the result is an error, so no option list is ever handed
to the engine's load. -/
theorem c2_table_query_mutually_exclusive (c : JdbcConn)
    (table query : Option String) (options : Option (List (String × String)))
    (ht : pyTruthy table = true) (hq : pyTruthy query = true) :
    synapseRead c table query options =
        .error (.valueError "Provide either table or query, not both")
    ∧ sqlRead c table query options =
        .error (.valueError "Provide either table or query, not both") := by
  unfold synapseRead sqlRead
  rw [ht, hq]
  exact ⟨rfl, rfl⟩

/-- C2 witness: both theorems applied at a concrete connector with table
`fact_sales` and query `SELECT 1` supplied together. -/
theorem c2_table_query_mutually_exclusive_witness :
    synapseRead sampleConn (some "fact_sales") (some "SELECT 1") none =
        .error (.valueError "Provide either table or query, not both")
    ∧ sqlRead sampleConn (some "fact_sales") (some "SELECT 1") none =
        .error (.valueError "Provide either table or query, not both") :=
  c2_table_query_mutually_exclusive sampleConn
    (some "fact_sales") (some "SELECT 1") none rfl rfl

/-- C3 counterexample: the claim says a call of AzureSQLConnector.read with
neither table nor query supplied raises a generic validation error rather
than forwarding an empty request to the engine.  On the code it is false:
`sqlRead` with both arguments absent raises nothing and forwards the option
list with the binding `("query", None)` to the engine. -/
theorem c3_sql_read_missing_args_counterexample :
    sqlRead sampleConn none none none =
      .ok [("url", some "jdbc:sqlserver://srv:1433;database=db"),
           ("user", some "u"), ("password", some "p"),
           ("driver", some "com.microsoft.sqlserver.jdbc.SQLServerDriver"),
           ("query", none)]
    ∧ isValidationError (sqlRead sampleConn none none none) = false :=
  ⟨rfl, rfl⟩

/-- C3 amended: when neither a table nor a query argument is supplied
(both falsy), AzureSynapseConnector.read raises the generic
required-field validation error, but AzureSQLConnector.read performs no
such validation: it forwards the request to the engine with the `query`
option bound to the absent value. -/
theorem c3_required_field_validation (c : JdbcConn)
    (table query : Option String) (options : Option (List (String × String)))
    (ht : pyTruthy table = false) (hq : pyTruthy query = false) :
    synapseRead c table query options =
        .error (.valueError "Provide either table or query")
    ∧ sqlRead c table query options = .ok (jdbcReadOptions c table query options)
    ∧ ("query", query) ∈ jdbcReadOptions c table query options := by
  unfold synapseRead sqlRead
  rw [ht, hq]
  refine ⟨rfl, rfl, ?_⟩
  unfold jdbcReadOptions
  rw [ht]
  simp

/-- C3 witness: the amended theorem applied at a concrete connector with
both arguments absent. -/
theorem c3_required_field_validation_witness :
    synapseRead sampleConn none none none =
        .error (.valueError "Provide either table or query")
    ∧ sqlRead sampleConn none none none =
        .ok (jdbcReadOptions sampleConn none none none)
    ∧ ("query", (none : Option String)) ∈ jdbcReadOptions sampleConn none none none :=
  c3_required_field_validation sampleConn none none none rfl rfl

/-- C4 counterexample: the claim says constructing AzureEventHubConnector
with the config argument omitted or None raises a generic validation error.
On the code it is false: `self.config = config or \x7b\x7d` is followed by
a membership test on the RAW `config` argument, so a None config raises
TypeError (NoneType is not iterable), which is not the generic validation
ValueError. -/
theorem c4_none_config_counterexample :
    eventHubInit "ns" "hub" none =
        .error (.typeError "argument of type NoneType is not iterable")
    ∧ isValidationError (eventHubInit "ns" "hub" none) = false :=
  ⟨rfl, rfl⟩

/-- C4 amended: constructing AzureEventHubConnector with a config dict that
does not contain the key `connection_string` raises the generic validation
error, and when the key is present construction succeeds and stores its
value as the connection string; but when the config argument is omitted or
None, construction fails with a TypeError from testing membership in None,
not with the generic validation error. -/
theorem c4_connection_string_required (ns hub : String)
    (cfg : List (String × String)) (v : String) :
    (dmem cfg "connection_string" = false →
      eventHubInit ns hub (some cfg) =
        .error (.valueError "connection_string is required in config"))
    ∧ (dfind cfg "connection_string" = some v →
        eventHubInit ns hub (some cfg) =
          .ok { namespaceName := ns, eventhub_name := hub, config := cfg,
                connection_string := v })
    ∧ eventHubInit ns hub none =
        .error (.typeError "argument of type NoneType is not iterable") := by
  refine ⟨?_, ?_, rfl⟩
  · intro h
    simp only [eventHubInit]
    rw [h]
    rfl
  · intro h
    simp only [eventHubInit]
    rw [dmem_of_dfind_eq_some cfg "connection_string" v h]
    unfold dget
    rw [h]
    rfl

/-- C4 witness: the amended theorem applied to the config without the key,
to the config with it, and to the None config. -/
theorem c4_connection_string_required_witness :
    eventHubInit "ns" "hub" (some [("namespace", "x")]) =
        .error (.valueError "connection_string is required in config")
    ∧ eventHubInit "ns" "hub" (some [("connection_string", "Endpoint=sb-one")]) =
        .ok { namespaceName := "ns", eventhub_name := "hub",
              config := [("connection_string", "Endpoint=sb-one")],
              connection_string := "Endpoint=sb-one" }
    ∧ eventHubInit "ns" "hub" none =
        .error (.typeError "argument of type NoneType is not iterable") :=
  ⟨(c4_connection_string_required "ns" "hub" [("namespace", "x")] "").1 rfl,
   (c4_connection_string_required "ns" "hub"
      [("connection_string", "Endpoint=sb-one")] "Endpoint=sb-one").2.1 rfl,
   (c4_connection_string_required "ns" "hub" [] "").2.2⟩

/-- C5: for every container, account name and path, AzureBlobConnector.read
and .write address exactly the URL
`wasbs://` container `@` account_name `.blob.core.windows.net/` path, and
AzureDataLakeGen2Connector.read and .write address exactly
`abfss://` container `@` account_name `.dfs.core.windows.net/` path. -/
theorem c5_storage_urls (c : AzureBlobConnector) (d : AzureDataLakeGen2Connector)
    (path format mode : String) (pb : Option (List String))
    (options : Option (List (String × String))) :
    (c.read path format options).path =
        "wasbs://" ++ c.container ++ "@" ++ c.account_name
          ++ ".blob.core.windows.net/" ++ path
    ∧ (c.write path format mode options).path =
        "wasbs://" ++ c.container ++ "@" ++ c.account_name
          ++ ".blob.core.windows.net/" ++ path
    ∧ (d.read path format options).path =
        "abfss://" ++ d.container ++ "@" ++ d.account_name
          ++ ".dfs.core.windows.net/" ++ path
    ∧ (d.write path format mode pb options).path =
        "abfss://" ++ d.container ++ "@" ++ d.account_name
          ++ ".dfs.core.windows.net/" ++ path :=
  ⟨rfl, rfl, rfl, rfl⟩

/-- C6 counterexample: the claim says in EVERY call of read_stream the
option `eventhubs.connectionString` passed to the engine equals the
connection string from config.  On the code it is false: `eh_conf.update`
lets a caller option with that very key override it, so a connector built
from a config with connection string `Endpoint=sb-one`, called with a
caller option binding the key to `Endpoint=sb-two`, hands the engine
`Endpoint=sb-two`. -/
theorem c6_read_stream_override_counterexample :
    (eventHubInit "ns" "hub" (some [("connection_string", "Endpoint=sb-one")])).map
        (fun c => lastVal
          (ehReadStream c "earliest"
            (some [("eventhubs.connectionString", "Endpoint=sb-two")]))
          "eventhubs.connectionString")
      = .ok (some "Endpoint=sb-two")
    ∧ ("Endpoint=sb-two" : String) ≠ "Endpoint=sb-one" :=
  ⟨rfl, by decide⟩

/-- C6 amended: write_stream always passes `eventhubs.connectionString`
equal to the connection string taken from config, unchanged; read_stream
does so whenever the caller options do not themselves bind that key (in
particular when no options are given), while a caller option with that key
overrides it. -/
theorem c6_connection_string_passthrough (c : EventHubConn)
    (sp cp om tr : String) (options : List (String × String))
    (h : lastVal options "eventhubs.connectionString" = none) :
    lastVal (ehReadStream c sp (some options)) "eventhubs.connectionString"
        = some c.connection_string
    ∧ lastVal (ehReadStream c sp none) "eventhubs.connectionString"
        = some c.connection_string
    ∧ lastVal (ehWriteStream c cp om tr).options "eventhubs.connectionString"
        = some c.connection_string := by
  refine ⟨?_, rfl, rfl⟩
  show lastVal ([("eventhubs.connectionString", c.connection_string),
      ("eventhubs.startingPosition", "\x7b\"offset\": \"" ++ sp ++ "\"\x7d")]
      ++ options) "eventhubs.connectionString" = some c.connection_string
  rw [lastVal_append, h]
  rfl

/-- C6 witness: the amended theorem applied at a concrete connector with a
caller option map that does not bind the connection-string key. -/
theorem c6_connection_string_passthrough_witness :
    lastVal (ehReadStream sampleHub "earliest"
        (some [("maxEventsPerTrigger", "100")])) "eventhubs.connectionString"
      = some "Endpoint=sb-one"
    ∧ lastVal (ehReadStream sampleHub "earliest" none)
        "eventhubs.connectionString" = some "Endpoint=sb-one"
    ∧ lastVal (ehWriteStream sampleHub "/chk" "append"
        "processingTime=10 seconds").options "eventhubs.connectionString"
      = some "Endpoint=sb-one" :=
  c6_connection_string_passthrough sampleHub "earliest" "/chk" "append"
    "processingTime=10 seconds" [("maxEventsPerTrigger", "100")] rfl

theorem connProps_infix_readOptions (c : JdbcConn) (table query : Option String)
    (options : Option (List (String × String))) :
    c.connection_properties.map (fun p => (p.1, some p.2)) <:+:
      jdbcReadOptions c table query options := by
  refine ⟨[("url", some c.jdbc_url)],
    (if pyTruthy table then [("dbtable", table)] else [("query", query)])
      ++ (options.getD []).map (fun p => (p.1, some p.2)), ?_⟩
  unfold jdbcReadOptions
  simp [List.append_assoc]

theorem connProps_infix_writeOptions (c : JdbcConn) (table : String)
    (options : Option (List (String × String))) :
    c.connection_properties.map (fun p => (p.1, some p.2)) <:+:
      jdbcWriteOptions c table options := by
  refine ⟨[("url", some c.jdbc_url), ("dbtable", some table)],
    (options.getD []).map (fun p => (p.1, some p.2)), ?_⟩
  unfold jdbcWriteOptions
  simp [List.append_assoc]

/-- C7: AzureSynapseConnector builds the JDBC URL
`jdbc:sqlserver://` server `:1433;database=` database, AzureSQLConnector
appends `;encrypt=true;trustServerCertificate=false;hostNameInCertificate=*.database.windows.net;loginTimeout=30`,
and both thread user, password and the SQL Server driver class from the
constructor's config into the connection-property map, which is applied
(as a contiguous block of options) on every read and every write. -/
theorem c7_jdbc_urls_and_properties (server database : String)
    (cfg : List (String × String)) (cS cQ : JdbcConn)
    (hS : synapseInit server database (some cfg) = .ok cS)
    (hQ : sqlInit server database (some cfg) = .ok cQ) :
    cS.jdbc_url = "jdbc:sqlserver://" ++ server ++ ":1433;database=" ++ database
    ∧ cQ.jdbc_url = "jdbc:sqlserver://" ++ server ++ ":1433;database=" ++ database
        ++ ";encrypt=true;trustServerCertificate=false;hostNameInCertificate=*.database.windows.net;loginTimeout=30"
    ∧ cS.connection_properties =
        [("user", dget cfg "user" ""), ("password", dget cfg "password" ""),
         ("driver", "com.microsoft.sqlserver.jdbc.SQLServerDriver")]
    ∧ cQ.connection_properties = cS.connection_properties
    ∧ (∀ table query options r, synapseRead cS table query options = .ok r →
        cS.connection_properties.map (fun p => (p.1, some p.2)) <:+: r)
    ∧ (∀ table query options r, sqlRead cQ table query options = .ok r →
        cQ.connection_properties.map (fun p => (p.1, some p.2)) <:+: r)
    ∧ (∀ table mode options,
        cS.connection_properties.map (fun p => (p.1, some p.2)) <:+:
          (synapseWrite cS table mode options).2)
    ∧ (∀ table mode options,
        cQ.connection_properties.map (fun p => (p.1, some p.2)) <:+:
          (sqlWrite cQ table mode options).2) := by
  simp only [synapseInit] at hS
  simp only [sqlInit] at hQ
  injection hS with hS2
  injection hQ with hQ2
  subst hS2
  subst hQ2
  refine ⟨rfl, rfl, rfl, rfl, ?_, ?_, ?_, ?_⟩
  · intro table query options r hr
    unfold synapseRead at hr
    split at hr
    · cases hr
    · split at hr
      · cases hr
      · injection hr with h
        subst h
        exact connProps_infix_readOptions _ table query options
  · intro table query options r hr
    unfold sqlRead at hr
    split at hr
    · cases hr
    · injection hr with h
      subst h
      exact connProps_infix_readOptions _ table query options
  · intro table mode options
    exact connProps_infix_writeOptions _ table options
  · intro table mode options
    exact connProps_infix_writeOptions _ table options

/-- C7 witness: the theorem applied to concrete constructions from the
config with user `u` and password `p`. -/
theorem c7_jdbc_urls_and_properties_witness :
    sampleConn.jdbc_url = "jdbc:sqlserver://srv:1433;database=db"
    ∧ sampleSql.jdbc_url = "jdbc:sqlserver://srv:1433;database=db;encrypt=true;trustServerCertificate=false;hostNameInCertificate=*.database.windows.net;loginTimeout=30"
    ∧ sampleConn.connection_properties.map (fun p => (p.1, some p.2)) <:+:
        (synapseWrite sampleConn "fact_sales" "overwrite" none).2
    ∧ sampleSql.connection_properties.map (fun p => (p.1, some p.2)) <:+:
        (sqlWrite sampleSql "customers" "append" none).2 := by
  have h := c7_jdbc_urls_and_properties "srv" "db"
    [("user", "u"), ("password", "p")] sampleConn sampleSql rfl rfl
  exact ⟨h.1, h.2.1, h.2.2.2.2.2.2.1 "fact_sales" "overwrite" none,
    h.2.2.2.2.2.2.2 "customers" "append" none⟩

/-- C8: _configure_auth with auth_type `account_key` and an account key in
config performs exactly one engine configuration change, setting
`fs.azure.account.key.` account_name `.dfs.core.windows.net` to the key;
with an auth_type outside the three recognised values, or with the
corresponding credential absent from config, it performs no configuration
change at all. -/
theorem c8_configure_auth_frame (account_name auth_type k : String)
    (cfg : List (String × String)) :
    (dfind cfg "account_key" = some k →
      configureAuth account_name cfg "account_key" =
        .ok [("fs.azure.account.key." ++ account_name ++ ".dfs.core.windows.net", k)])
    ∧ (auth_type ≠ "account_key" → auth_type ≠ "sas_token" →
        auth_type ≠ "managed_identity" →
        configureAuth account_name cfg auth_type = .ok [])
    ∧ (dmem cfg "account_key" = false →
        configureAuth account_name cfg "account_key" = .ok [])
    ∧ (dmem cfg "sas_token" = false →
        configureAuth account_name cfg "sas_token" = .ok []) := by
  refine ⟨?_, ?_, ?_, ?_⟩
  · intro h
    unfold configureAuth
    rw [dmem_of_dfind_eq_some cfg "account_key" k h]
    unfold dget
    rw [h]
    rfl
  · intro h1 h2 h3
    have e1 : (auth_type == "account_key") = false := beq_eq_false_iff_ne.mpr h1
    have e2 : (auth_type == "sas_token") = false := beq_eq_false_iff_ne.mpr h2
    have e3 : (auth_type == "managed_identity") = false := beq_eq_false_iff_ne.mpr h3
    unfold configureAuth
    rw [e1, e2, e3]
    rfl
  · intro h
    unfold configureAuth
    rw [h]
    rfl
  · intro h
    unfold configureAuth
    rw [h]
    rfl

/-- C8 witness: the theorem applied at the account `mystorageaccount` with
the key present, an unrecognised auth type, and each credential absent. -/
theorem c8_configure_auth_frame_witness :
    configureAuth "mystorageaccount" [("account_key", "K")] "account_key" =
        .ok [("fs.azure.account.key.mystorageaccount.dfs.core.windows.net", "K")]
    ∧ configureAuth "mystorageaccount" [("account_key", "K")] "service_principal" = .ok []
    ∧ configureAuth "mystorageaccount" [] "account_key" = .ok []
    ∧ configureAuth "mystorageaccount" [] "sas_token" = .ok [] := by
  have h1 := c8_configure_auth_frame "mystorageaccount" "service_principal" "K"
    [("account_key", "K")]
  have h2 := c8_configure_auth_frame "mystorageaccount" "x" "K" []
  exact ⟨h1.1 rfl, h1.2.1 (by decide) (by decide) (by decide),
    h2.2.2.1 rfl, h2.2.2.2 rfl⟩

/-- C9: the constructors of AzureSynapseConnector and AzureSQLConnector
call `.get` on the raw config argument, so construction fails (with an
AttributeError, from dereferencing None) exactly when no config dict is
supplied; with any config dict supplied construction succeeds, and a
missing `user` or `password` key yields the empty string in the
connection properties. -/
theorem c9_raw_config_dereference (server database : String)
    (cfg : List (String × String)) :
    synapseInit server database none =
        .error (.attributeError "NoneType object has no attribute get")
    ∧ sqlInit server database none =
        .error (.attributeError "NoneType object has no attribute get")
    ∧ (∃ c, synapseInit server database (some cfg) = .ok c
        ∧ (dmem cfg "user" = false → ("user", "") ∈ c.connection_properties)
        ∧ (dmem cfg "password" = false →
            ("password", "") ∈ c.connection_properties))
    ∧ (∃ c, sqlInit server database (some cfg) = .ok c
        ∧ (dmem cfg "user" = false → ("user", "") ∈ c.connection_properties)
        ∧ (dmem cfg "password" = false →
            ("password", "") ∈ c.connection_properties)) := by
  refine ⟨rfl, rfl, ⟨_, rfl, ?_, ?_⟩, ⟨_, rfl, ?_, ?_⟩⟩ <;> intro h
  · rw [dget_of_dmem_false cfg "user" "" h]
    simp
  · rw [dget_of_dmem_false cfg "password" "" h]
    simp
  · rw [dget_of_dmem_false cfg "user" "" h]
    simp
  · rw [dget_of_dmem_false cfg "password" "" h]
    simp

/-- C9 witness: the theorem applied at server `srv`, database `db`, and the
empty config dict, where both credential keys are missing. -/
theorem c9_raw_config_dereference_witness :
    synapseInit "srv" "db" none =
        .error (.attributeError "NoneType object has no attribute get")
    ∧ synapseInit "srv" "db" (some []) = .ok emptyCfgConn
    ∧ ("user", "") ∈ emptyCfgConn.connection_properties
    ∧ ("password", "") ∈ emptyCfgConn.connection_properties := by
  have h := c9_raw_config_dereference "srv" "db" []
  obtain ⟨c, hc, hu, hp⟩ := h.2.2.1
  have he : synapseInit "srv" "db" (some []) = .ok emptyCfgConn := rfl
  have hce : Except.ok c = Except.ok emptyCfgConn := hc.symm.trans he
  injection hce with hce2
  subst hce2
  exact ⟨h.1, he, hu rfl, hp rfl⟩

theorem lastVal_readOptions_caller (c : JdbcConn) (table query : Option String)
    (opts : List (String × String)) (key v : String)
    (hv : lastVal opts key = some v) :
    lastVal (jdbcReadOptions c table query (some opts)) key = some (some v) := by
  show lastVal (([("url", some c.jdbc_url)]
      ++ c.connection_properties.map (fun p => (p.1, some p.2))
      ++ (if pyTruthy table then [("dbtable", table)] else [("query", query)]))
      ++ opts.map (fun p => (p.1, some p.2))) key = some (some v)
  rw [lastVal_append, lastVal_map_some, hv]
  rfl

theorem lastVal_writeOptions_caller (c : JdbcConn) (table : String)
    (opts : List (String × String)) (key v : String)
    (hv : lastVal opts key = some v) :
    lastVal (jdbcWriteOptions c table (some opts)) key = some (some v) := by
  show lastVal (([("url", some c.jdbc_url), ("dbtable", some table)]
      ++ c.connection_properties.map (fun p => (p.1, some p.2)))
      ++ opts.map (fun p => (p.1, some p.2))) key = some (some v)
  rw [lastVal_append, lastVal_map_some, hv]
  rfl

/-- C10: in every connector read, write and read_stream operation that
takes a caller option map, the caller options are applied after the
connector's built-in settings, so whatever value the caller's option map
assigns a key (its last binding) is the value the engine receives for that
key, overriding any built-in binding of the same key. -/
theorem c10_caller_options_override (key v : String)
    (opts : List (String × String)) (hv : lastVal opts key = some v) :
    (∀ (c : AzureBlobConnector) path format,
        lastVal (c.read path format (some opts)).options key = some v)
    ∧ (∀ (c : AzureBlobConnector) path format mode,
        lastVal (c.write path format mode (some opts)).options key = some v)
    ∧ (∀ (d : AzureDataLakeGen2Connector) path format,
        lastVal (d.read path format (some opts)).options key = some v)
    ∧ (∀ (d : AzureDataLakeGen2Connector) path format mode pb,
        lastVal (d.write path format mode pb (some opts)).options key = some v)
    ∧ (∀ (c : JdbcConn) table query r,
        synapseRead c table query (some opts) = .ok r →
        lastVal r key = some (some v))
    ∧ (∀ (c : JdbcConn) table query r,
        sqlRead c table query (some opts) = .ok r →
        lastVal r key = some (some v))
    ∧ (∀ (c : JdbcConn) table mode,
        lastVal (synapseWrite c table mode (some opts)).2 key = some (some v))
    ∧ (∀ (c : JdbcConn) table mode,
        lastVal (sqlWrite c table mode (some opts)).2 key = some (some v))
    ∧ (∀ (c : EventHubConn) sp,
        lastVal (ehReadStream c sp (some opts)) key = some v) := by
  refine ⟨fun c path format => hv, fun c path format mode => hv,
    fun d path format => hv, fun d path format mode pb => hv,
    ?_, ?_, ?_, ?_, ?_⟩
  · intro c table query r hr
    unfold synapseRead at hr
    split at hr
    · cases hr
    · split at hr
      · cases hr
      · injection hr with h
        subst h
        exact lastVal_readOptions_caller c table query opts key v hv
  · intro c table query r hr
    unfold sqlRead at hr
    split at hr
    · cases hr
    · injection hr with h
      subst h
      exact lastVal_readOptions_caller c table query opts key v hv
  · intro c table mode
    exact lastVal_writeOptions_caller c table opts key v hv
  · intro c table mode
    exact lastVal_writeOptions_caller c table opts key v hv
  · intro c sp
    show lastVal ([("eventhubs.connectionString", c.connection_string),
        ("eventhubs.startingPosition", "\x7b\"offset\": \"" ++ sp ++ "\"\x7d")]
        ++ opts) key = some v
    rw [lastVal_append, hv]
    rfl

/-- C10 witness: the theorem applied with the caller key `user`, which
collides with a built-in JDBC connection property, and an engine read that
succeeds on a concrete table. -/
theorem c10_caller_options_override_witness :
    lastVal (jdbcReadOptions sampleConn (some "fact_sales") none
        (some [("user", "caller")])) "user" = some (some "caller")
    ∧ lastVal (synapseWrite sampleConn "fact_sales" "append"
        (some [("user", "caller")])).2 "user" = some (some "caller")
    ∧ lastVal (ehReadStream sampleHub "earliest"
        (some [("eventhubs.startingPosition", "caller")]))
        "eventhubs.startingPosition" = some "caller" := by
  have h := c10_caller_options_override "user" "caller" [("user", "caller")] rfl
  have h2 := c10_caller_options_override "eventhubs.startingPosition" "caller"
    [("eventhubs.startingPosition", "caller")] rfl
  refine ⟨?_, h.2.2.2.2.2.2.1 sampleConn "fact_sales" "append",
    h2.2.2.2.2.2.2.2.2 sampleHub "earliest"⟩
  exact h.2.2.2.2.1 sampleConn (some "fact_sales") none
    (jdbcReadOptions sampleConn (some "fact_sales") none
      (some [("user", "caller")])) rfl

end AzureConnectors
